import Mathlib

/-!
Shallow embedding of the InsightVault summarizer application
(src/types.ts, src/services/db.ts, src/services/gemini.ts,
src/components/Analyzer.tsx, src/components/PromptManager.tsx,
src/components/KnowledgeBase.tsx).

Modelling conventions:
- JavaScript strings are Lean `String`; `s.substring(0, n)` is `String.take n`,
  `s.trim()` is `jsTrim` below, template literals are `++` concatenation.
- A JavaScript value that may be `undefined` is an `Option`.
- The IndexedDB object stores (keyPath `id`) are lists of records; `put`
  overwrites the record with the same key or inserts, `delete` removes by key.
  `getAll` on a store or index returns records in ascending key order, which we
  model by sorting at read time (`List.insertionSort`); for the `timestamp`
  index of the entries store the IndexedDB key order is ascending
  (timestamp, primary key).
- The remote Gemini call is a parameter `provider : GenRequest → Except ε (Option String)`:
  `.error e` models a thrown transport/auth/quota failure `e`,
  `.ok t` models a response whose `response.text` is `t` (possibly undefined).
- `Date.now()`, `crypto.randomUUID()` and locale date formatting are
  parameters (`now`, fresh-id arguments, `fmtDate`).
-/

/-- JavaScript `a || b` where `a : string | undefined` (both `undefined` and the
empty string are falsy). -/
def jsOrString (a : Option String) (d : String) : String :=
  match a with
  | none => d
  | some s => if s = "" then d else s

/-- JavaScript `a || b` where `a : number | undefined` (both `undefined` and `0`
are falsy). -/
def jsOrNum (a : Option Nat) (d : Nat) : Nat :=
  match a with
  | none => d
  | some n => if n = 0 then d else n

/-- JavaScript `s.trim()`: the string with leading and trailing whitespace
removed. -/
def jsTrim (s : String) : String :=
  String.mk (((s.data.dropWhile Char.isWhitespace).reverse.dropWhile
      Char.isWhitespace).reverse)

/-- JavaScript truthiness of a `string | undefined` value. -/
def jsTruthy (a : Option String) : Bool :=
  match a with
  | none => false
  | some s => !(s == "")

/-- Model of src/types.ts `SavedPrompt`. The TypeScript interface declares
`createdAt: number`, but the import path (PromptManager.handleImport) stores
the spread of an unvalidated parsed object which may lack `createdAt`, so the
runtime field is modelled as `Option Nat` (`none` = the field is undefined). -/
structure SavedPrompt where
  id : String
  title : String
  content : String
  createdAt : Option Nat
deriving Repr, DecidableEq

/-- Model of src/types.ts `AnalysisEntry`. -/
structure AnalysisEntry where
  id : String
  title : String
  originalText : String
  analysis : String
  promptId : String
  promptSnapshot : String
  timestamp : Nat
deriving Repr, DecidableEq

/-- The two object stores of InsightVaultDB (src/services/db.ts):
`prompts` and `entries`, both with keyPath `id`. -/
structure DBState where
  prompts : List SavedPrompt
  entries : List AnalysisEntry
deriving Repr, DecidableEq

/-- IndexedDB `store.put(v)` on a store with keyPath `key`: overwrite the
record with the same key if present, otherwise insert. -/
def idbPut {α : Type} (key : α → String) (v : α) (l : List α) : List α :=
  if l.any (fun x => key x == key v) then
    l.map (fun x => if key x == key v then v else x)
  else l ++ [v]

/-- IndexedDB `store.delete(k)`: remove the record with key `k`; a no-op when
no such record exists. -/
def idbDelete {α : Type} (key : α → String) (k : String) (l : List α) : List α :=
  l.filter (fun x => !(key x == k))

/-- Key order of the `prompts` store (string primary key `id`). -/
def promptKeyLe (a b : SavedPrompt) : Prop := a.id ≤ b.id

instance (a b : SavedPrompt) : Decidable (promptKeyLe a b) := by
  unfold promptKeyLe; infer_instance

/-- Key order of the `timestamp` index of the `entries` store: ascending
timestamp, ties in ascending primary-key (`id`) order. -/
def entryKeyLe (a b : AnalysisEntry) : Prop :=
  a.timestamp < b.timestamp ∨ (a.timestamp = b.timestamp ∧ a.id ≤ b.id)

instance (a b : AnalysisEntry) : Decidable (entryKeyLe a b) := by
  unfold entryKeyLe; infer_instance

instance : IsTotal AnalysisEntry entryKeyLe where
  total a b := by
    unfold entryKeyLe
    rcases Nat.lt_trichotomy a.timestamp b.timestamp with h | h | h
    · exact Or.inl (Or.inl h)
    · rcases le_total a.id b.id with h2 | h2
      · exact Or.inl (Or.inr ⟨h, h2⟩)
      · exact Or.inr (Or.inr ⟨h.symm, h2⟩)
    · exact Or.inr (Or.inl h)

instance : IsTrans AnalysisEntry entryKeyLe where
  trans a b c hab hbc := by
    unfold entryKeyLe at *
    rcases hab with h1 | ⟨h1, h1'⟩
    · rcases hbc with h2 | ⟨h2, _⟩
      · exact Or.inl (h1.trans h2)
      · exact Or.inl (h2 ▸ h1)
    · rcases hbc with h2 | ⟨h2, h2'⟩
      · exact Or.inl (h1 ▸ h2)
      · exact Or.inr ⟨h1.trans h2, le_trans h1' h2'⟩

/-- Model of src/services/db.ts `DBService.getAllPrompts`: `store.getAll()` returns the
records of the `prompts` store in ascending key order. -/
def DBService.getAllPrompts (st : DBState) : List SavedPrompt :=
  List.insertionSort promptKeyLe st.prompts

/-- Model of src/services/db.ts `DBService.savePrompt`: `store.put(prompt)`. -/
def DBService.savePrompt (p : SavedPrompt) (st : DBState) : DBState :=
  { st with prompts := idbPut SavedPrompt.id p st.prompts }

/-- Model of src/services/db.ts `DBService.deletePrompt`: `store.delete(id)`. -/
def DBService.deletePrompt (i : String) (st : DBState) : DBState :=
  { st with prompts := idbDelete SavedPrompt.id i st.prompts }

/-- Model of src/services/db.ts `DBService.getAllEntries`: `getAll()` on the timestamp index
returns ascending (timestamp, primary key) order, then `.reverse()`. -/
def DBService.getAllEntries (st : DBState) : List AnalysisEntry :=
  (List.insertionSort entryKeyLe st.entries).reverse

/-- Model of src/services/db.ts `DBService.saveEntry`: `store.put(entry)`. -/
def DBService.saveEntry (e : AnalysisEntry) (st : DBState) : DBState :=
  { st with entries := idbPut AnalysisEntry.id e st.entries }

/-- Model of src/services/db.ts `DBService.deleteEntry`: `store.delete(id)`. -/
def DBService.deleteEntry (i : String) (st : DBState) : DBState :=
  { st with entries := idbDelete AnalysisEntry.id i st.entries }

/-- Request sent to `this.ai.models.generateContent` (src/services/gemini.ts):
the model id, the ordered text parts of the single user turn, and the optional
system instruction. The numeric `temperature` configuration is floating point
and carries no claim, so it is not modelled. -/
structure GenRequest where
  model : String
  parts : List String
  systemInstruction : Option String
deriving Repr, DecidableEq

/-- Model of src/services/gemini.ts `modelId`. -/
def GeminiService.modelId : String := "gemini-2.5-flash"

/-- Model of src/services/gemini.ts `GeminiService.analyzeText`: builds the two-part
prompt, issues one provider call, returns `response.text` or the literal
fallback; a thrown provider failure is rethrown to the caller unchanged. -/
def GeminiService.analyzeText {ε : Type} (provider : GenRequest → Except ε (Option String))
    (text promptInstruction : String) : Except ε String :=
  match provider
      { model := GeminiService.modelId
        parts := ["INSTRUCTION: " ++ promptInstruction,
                  "TRANSCRIPT/TEXT TO ANALYZE:\n" ++ text]
        systemInstruction := none } with
  | .error e => .error e
  | .ok t => .ok (jsOrString t "No response generated.")

/-- Model of src/services/gemini.ts `searchDatabase`: the context block contributed by
one entry. `new Date(entry.timestamp).toLocaleDateString()` is locale
dependent and is abstracted as the parameter `fmtDate`;
`entry.originalText.substring(0, 300)` is `String.take 300`. -/
def entryContext (fmtDate : Nat → String) (entry : AnalysisEntry) : String :=
  "\n---\nEntry ID: " ++ entry.id ++
  "\nDate: " ++ fmtDate entry.timestamp ++
  "\nTitle: " ++ entry.title ++
  "\nSummary/Analysis: " ++ entry.analysis ++
  "\nOriginal Excerpt (First 300 chars): " ++ entry.originalText.take 300 ++
  "...\n---\n        "

/-- Model of src/services/gemini.ts `searchDatabase`:
`entries.slice(0, 50).map(...).join('\n')`. -/
def contextData (fmtDate : Nat → String) (entries : List AnalysisEntry) : String :=
  String.intercalate "\n" ((entries.take 50).map (entryContext fmtDate))

/-- Model of src/services/gemini.ts `searchDatabase`: the fixed system instruction. -/
def searchSystemInstruction : String :=
  "You are a knowledge base assistant. \nYou have access to a list of analyzed interview transcripts/texts. \nYour job is to answer the user\x27s question based ONLY on the provided database context.\nIf the answer is not in the context, say you don\x27t know. \nCite the Entry ID or Title when referencing specific information."

/-- Model of src/services/gemini.ts `GeminiService.searchDatabase`: builds the bounded
context document, issues one provider call with the fixed system instruction,
returns `response.text` or the literal fallback; a thrown provider failure is
rethrown to the caller unchanged. -/
def GeminiService.searchDatabase {ε : Type} (provider : GenRequest → Except ε (Option String))
    (fmtDate : Nat → String) (query : String) (entries : List AnalysisEntry) :
    Except ε String :=
  match provider
      { model := GeminiService.modelId
        parts := ["DATABASE CONTEXT:\n" ++ contextData fmtDate entries,
                  "USER QUESTION: " ++ query]
        systemInstruction := some searchSystemInstruction } with
  | .error e => .error e
  | .ok t => .ok (jsOrString t "I couldn\x27t find an answer in your database.")

/-- Transient view state of src/components/Analyzer.tsx (the React useState
hooks that the modelled handlers read or write; `isAnalyzing` is true only
while a call is in flight and is false again in every final state, so it is
not carried). -/
structure AnalyzerState where
  prompts : List SavedPrompt
  selectedPromptId : String
  inputText : String
  title : String
  result : Option String
  error : Option String
deriving Repr, DecidableEq

/-- Outcome of one invocation of `handleRunAnalysis`: the final view state and
the list of (text, promptInstruction) arguments of the gateway calls it
issued, in order. -/
structure RunAnalysisOutcome where
  state : AnalyzerState
  gatewayCalls : List (String × String)
deriving Repr

/-- Model of src/components/Analyzer.tsx `handleRunAnalysis`: validate the input text
and the selected prompt, look the prompt up, then issue exactly one
`geminiService.analyzeText` call; on success store the output in `result`,
on a thrown failure show the fixed error message. -/
def Analyzer.handleRunAnalysis {ε : Type} (provider : GenRequest → Except ε (Option String))
    (s : AnalyzerState) : RunAnalysisOutcome :=
  if jsTrim s.inputText = "" then
    { state := { s with error := some "Please enter text to analyze." }, gatewayCalls := [] }
  else if s.selectedPromptId = "" then
    { state := { s with error := some "Please select a prompt." }, gatewayCalls := [] }
  else
    match s.prompts.find? (fun p => p.id == s.selectedPromptId) with
    | none => { state := s, gatewayCalls := [] }
    | some promptObj =>
      match GeminiService.analyzeText provider s.inputText promptObj.content with
      | .ok output =>
        { state := { s with error := none, result := some output }
          gatewayCalls := [(s.inputText, promptObj.content)] }
      | .error _ =>
        { state :=
            { s with
              result := none
              error := some "Failed to generate analysis. Please check your connection and API key." }
          gatewayCalls := [(s.inputText, promptObj.content)] }

/-- Outcome of one invocation of Analyzer `handleSave`: the store after the
save, the entry that was persisted (if any), and the final view state. -/
structure AnalyzerSaveOutcome where
  db : DBState
  savedEntry : Option AnalysisEntry
  state : AnalyzerState
deriving Repr

/-- Model of src/components/Analyzer.tsx `handleSave`: guard on a truthy `result` and
`selectedPromptId`, look the selected prompt up in the in-memory `prompts`
list, build the `AnalysisEntry` (with `promptSnapshot := promptObj.content`)
and persist it with `dbService.saveEntry`, then reset the form. `newId` is
the `crypto.randomUUID()` value, `now` is `Date.now()` and `nowLabel` is the
locale-formatted `new Date().toLocaleString()` used in the default title. -/
def Analyzer.handleSave (s : AnalyzerState) (db : DBState) (newId : String)
    (now : Nat) (nowLabel : String) : AnalyzerSaveOutcome :=
  if jsTruthy s.result = false then { db := db, savedEntry := none, state := s }
  else if s.selectedPromptId = "" then { db := db, savedEntry := none, state := s }
  else
    match s.prompts.find? (fun p => p.id == s.selectedPromptId) with
    | none => { db := db, savedEntry := none, state := s }
    | some promptObj =>
      let newEntry : AnalysisEntry :=
        { id := newId
          title := if s.title = "" then "Analysis - " ++ nowLabel else s.title
          originalText := s.inputText
          analysis := s.result.getD ""
          promptId := promptObj.id
          promptSnapshot := promptObj.content
          timestamp := now }
      { db := DBService.saveEntry newEntry db
        savedEntry := some newEntry
        state := { s with inputText := "", result := none, title := "" } }

/-- An operation on the template collection: `dbService.savePrompt` or
`dbService.deletePrompt` (the only writes the prompt-management paths make). -/
inductive PromptOp where
  | save (p : SavedPrompt)
  | delete (i : String)
deriving Repr

/-- Apply one template-collection operation to the store. -/
def applyPromptOp (op : PromptOp) (st : DBState) : DBState :=
  match op with
  | .save p => DBService.savePrompt p st
  | .delete i => DBService.deletePrompt i st

/-- Apply a sequence of template-collection operations, oldest first. -/
def applyPromptOps (ops : List PromptOp) (st : DBState) : DBState :=
  ops.foldl (fun st op => applyPromptOp op st) st

/-- Model of src/components/PromptManager.tsx `currentPrompt`, as
TypeScript type Part ial of SavedPrompt: every field may be undefined. -/
structure CurrentPrompt where
  id : Option String
  title : Option String
  content : Option String
  createdAt : Option Nat
deriving Repr, DecidableEq

/-- Model of src/components/PromptManager.tsx `handleEdit`: with an argument it loads
the prompt into the editor; without one it starts from empty title/content. -/
def PromptManager.handleEdit (p : Option SavedPrompt) : CurrentPrompt :=
  match p with
  | some p => { id := some p.id, title := some p.title, content := some p.content,
                createdAt := p.createdAt }
  | none => { id := none, title := some "", content := some "", createdAt := none }

/-- Model of src/components/PromptManager.tsx `handleSave`: return unchanged when the
title or content is falsy; otherwise build `promptToSave` (keeping a truthy
`id` and `createdAt`, else the fresh uuid `freshId` / `Date.now()` value
`now`) and persist it with `dbService.savePrompt`. Returns the new store and
the prompt that was saved, if any. -/
def PromptManager.handleSave (cur : CurrentPrompt) (freshId : String) (now : Nat)
    (st : DBState) : DBState × Option SavedPrompt :=
  if !jsTruthy cur.title || !jsTruthy cur.content then (st, none)
  else
    let promptToSave : SavedPrompt :=
      { id := jsOrString cur.id freshId
        title := cur.title.getD ""
        content := cur.content.getD ""
        createdAt := some (jsOrNum cur.createdAt now) }
    (DBService.savePrompt promptToSave st, some promptToSave)

/-- Parsed result of the import file (src/components/PromptManager.tsx
`handleImport`): either a JSON array whose items are unvalidated objects cast
to SavedPrompt (so every field may be missing), or anything else — a non-array
value or a parse failure, both of which throw before any save. -/
inductive ImportedJson where
  | list (items : List CurrentPrompt)
  | notList
deriving Repr

/-- Outcome of `handleImport`: the store afterwards and `some count` for the
success alert (count = number of items imported) or `none` for the failure
alert. -/
structure ImportResult where
  db : DBState
  count : Option Nat
deriving Repr

/-- Model of src/components/PromptManager.tsx `handleImport`: reject a non-array
wholesale; otherwise save every item whose `title` and `content` are truthy,
spreading the item and substituting a fresh uuid when its `id` is falsy.
`freshIds k` is the k-th `crypto.randomUUID()` value consumed by the loop. -/
def PromptManager.handleImport (json : ImportedJson) (freshIds : Nat → String)
    (st : DBState) : ImportResult :=
  match json with
  | .notList => { db := st, count := none }
  | .list items =>
    let final := items.foldl
      (fun (acc : DBState × Nat × Nat) (p : CurrentPrompt) =>
        if jsTruthy p.title && jsTruthy p.content then
          let pToSave : SavedPrompt :=
            { id := jsOrString p.id (freshIds acc.2.2)
              title := p.title.getD ""
              content := p.content.getD ""
              createdAt := p.createdAt }
          (DBService.savePrompt pToSave acc.1, acc.2.1 + 1, acc.2.2 + 1)
        else acc)
      (st, 0, 0)
    { db := final.1, count := some final.2.1 }

/-! Helper lemmas about the store model. -/

theorem idbPut_of_fresh {α : Type} (key : α → String) (v : α) (l : List α)
    (h : ∀ x ∈ l, key x ≠ key v) : idbPut key v l = l ++ [v] := by
  unfold idbPut
  rw [if_neg]
  simp only [List.any_eq_true, beq_iff_eq, not_exists]
  intro x
  exact fun hx => h x hx.1 hx.2

theorem idbPut_of_present {α : Type} (key : α → String) (v : α) (l : List α)
    (h : ∃ x ∈ l, key x = key v) :
    idbPut key v l = l.map (fun x => if key x == key v then v else x) := by
  unfold idbPut
  rw [if_pos]
  simp only [List.any_eq_true, beq_iff_eq]
  exact h

theorem mem_idbPut {α : Type} (key : α → String) (v : α) (l : List α) :
    v ∈ idbPut key v l := by
  unfold idbPut
  by_cases h : l.any (fun x => key x == key v) = true
  · rw [if_pos h]
    simp only [List.any_eq_true, beq_iff_eq] at h
    obtain ⟨x, hx, hk⟩ := h
    refine List.mem_map.2 ⟨x, hx, ?_⟩
    rw [if_pos (by simp [hk])]
  · rw [if_neg h]
    simp

theorem applyPromptOps_entries (ops : List PromptOp) (st : DBState) :
    (applyPromptOps ops st).entries = st.entries := by
  induction ops generalizing st with
  | nil => rfl
  | cons op ops ih =>
    have hop : (applyPromptOp op st).entries = st.entries := by
      cases op with
      | save p => rfl
      | delete i => rfl
    calc (applyPromptOps (op :: ops) st).entries
        = (applyPromptOps ops (applyPromptOp op st)).entries := rfl
      _ = (applyPromptOp op st).entries := ih _
      _ = st.entries := hop

theorem jsOrString_ne_empty (a : Option String) (d : String) (hd : d ≠ "") :
    jsOrString a d ≠ "" := by
  cases a with
  | none => simpa [jsOrString] using hd
  | some s =>
    by_cases hs : s = ""
    · simpa [jsOrString, hs] using hd
    · simp [jsOrString, hs]

/-- Strict version of the entries key order, used to show that the listing is
independent of insertion order when ids are unique. -/
def entryKeyLtNe (a b : AnalysisEntry) : Prop := entryKeyLe a b ∧ a.id ≠ b.id

instance : IsAntisymm AnalysisEntry entryKeyLtNe where
  antisymm a b hab hba := by
    exfalso
    rcases hab with ⟨h1, hne⟩
    rcases hba with ⟨h2, _⟩
    rcases h1 with h1 | ⟨h1, h1'⟩ <;> rcases h2 with h2 | ⟨h2, h2'⟩
    · omega
    · omega
    · omega
    · exact hne (le_antisymm h1' h2')

theorem sorted_insertionSort_ltNe (l : List AnalysisEntry)
    (hnd : (l.map AnalysisEntry.id).Nodup) :
    List.Pairwise entryKeyLtNe (List.insertionSort entryKeyLe l) := by
  have hs : List.Pairwise entryKeyLe (List.insertionSort entryKeyLe l) :=
    List.sorted_insertionSort entryKeyLe l
  have hperm := List.perm_insertionSort entryKeyLe l
  have hnd2 : ((List.insertionSort entryKeyLe l).map AnalysisEntry.id).Nodup :=
    ((hperm.map AnalysisEntry.id).nodup_iff).2 hnd
  have hpw : List.Pairwise (fun a b : AnalysisEntry => a.id ≠ b.id)
      (List.insertionSort entryKeyLe l) := List.pairwise_map.1 hnd2
  exact hs.and hpw

/-! Concrete fixtures used by the witnesses. -/

def promptA : SavedPrompt :=
  { id := "p1", title := "T", content := "Summarize X", createdAt := some 5 }

def analyzerStateA : AnalyzerState :=
  { prompts := [promptA], selectedPromptId := "p1", inputText := "T-input",
    title := "", result := some "analysis-out", error := none }

def analyzerStateB : AnalyzerState :=
  { prompts := [promptA], selectedPromptId := "p1", inputText := "  \t ",
    title := "", result := none, error := none }

def dbA : DBState := { prompts := [promptA], entries := [] }

def entryE1 : AnalysisEntry :=
  { id := "a", title := "t1", originalText := "o1", analysis := "an1",
    promptId := "p1", promptSnapshot := "s1", timestamp := 1 }

def entryE2 : AnalysisEntry :=
  { id := "b", title := "t2", originalText := "o2", analysis := "an2",
    promptId := "p1", promptSnapshot := "s2", timestamp := 2 }

def dbB : DBState := { prompts := [], entries := [entryE1, entryE2] }

def dbC : DBState := { prompts := [], entries := [entryE2, entryE1] }

/-- C1: the `promptSnapshot` of the entry persisted by the analysis save path
equals the content of the selected template at generation time — the same
`promptObj.content` that `handleRunAnalysis` passes to the generation gateway —
and no subsequent `savePrompt`/`deletePrompt` operation on the template
collection changes any already-persisted entry: after any such sequence the
entries store is exactly the one the save produced, the saved entry still in
it with every field intact. -/
theorem C1_prompt_snapshot_immutable {ε : Type}
    (provider : GenRequest → Except ε (Option String))
    (s : AnalyzerState) (db : DBState) (newId : String) (now : Nat)
    (nowLabel : String) (promptObj : SavedPrompt)
    (hfind : s.prompts.find? (fun p => p.id == s.selectedPromptId) = some promptObj)
    (hres : jsTruthy s.result = true)
    (hsel : s.selectedPromptId ≠ "") :
    (∀ c ∈ (Analyzer.handleRunAnalysis provider s).gatewayCalls,
        c.2 = promptObj.content) ∧
    (∃ e, (Analyzer.handleSave s db newId now nowLabel).savedEntry = some e ∧
        e.promptSnapshot = promptObj.content ∧
        ∀ ops : List PromptOp,
          (applyPromptOps ops (Analyzer.handleSave s db newId now nowLabel).db).entries
              = (DBService.saveEntry e db).entries ∧
          e ∈ (applyPromptOps ops (Analyzer.handleSave s db newId now nowLabel).db).entries) := by
  constructor
  · intro call hcall
    by_cases h1 : jsTrim s.inputText = ""
    · simp [Analyzer.handleRunAnalysis, h1] at hcall
    · rcases hout : GeminiService.analyzeText provider s.inputText promptObj.content with e | out
      · simp [Analyzer.handleRunAnalysis, h1, hsel, hfind, hout] at hcall
        rw [hcall]
      · simp [Analyzer.handleRunAnalysis, h1, hsel, hfind, hout] at hcall
        rw [hcall]
  · have hsave : Analyzer.handleSave s db newId now nowLabel =
        { db := DBService.saveEntry
            { id := newId
              title := if s.title = "" then "Analysis - " ++ nowLabel else s.title
              originalText := s.inputText
              analysis := s.result.getD ""
              promptId := promptObj.id
              promptSnapshot := promptObj.content
              timestamp := now } db
          savedEntry := some
            { id := newId
              title := if s.title = "" then "Analysis - " ++ nowLabel else s.title
              originalText := s.inputText
              analysis := s.result.getD ""
              promptId := promptObj.id
              promptSnapshot := promptObj.content
              timestamp := now }
          state := { s with inputText := "", result := none, title := "" } } := by
      simp [Analyzer.handleSave, hres, hsel, hfind]
    refine ⟨_, by rw [hsave], rfl, ?_⟩
    intro ops
    rw [hsave]
    constructor
    · exact applyPromptOps_entries ops _
    · rw [applyPromptOps_entries ops _]
      exact mem_idbPut _ _ _

/-- Witness for C1: with a concrete template of content "Summarize X", the
entry saved by the analysis path carries promptSnapshot "Summarize X". -/
theorem C1_witness :
    (Analyzer.handleSave analyzerStateA dbA "e1" 10 "lbl").savedEntry.map
        AnalysisEntry.promptSnapshot = some "Summarize X" := by
  obtain ⟨e, he, hsnap, -⟩ :=
    (C1_prompt_snapshot_immutable
      (fun _ => Except.ok (some "out") : GenRequest → Except Unit (Option String))
      analyzerStateA dbA "e1" 10 "lbl" promptA (by decide) (by decide)
      (by decide)).2
  rw [he]
  simp [hsnap, promptA]

/-- C2: `getAllEntries` returns all persisted entries, in descending order of
creation timestamp, and the listing (including its tie-break among equal
timestamps) is a function of the stored set of entries alone — any two stores
holding the same entries in any insertion order produce the same listing, so
repeated calls with no intervening writes agree. -/
theorem C2_list_entries_complete_ordered_deterministic (st : DBState) :
    List.Perm (DBService.getAllEntries st) st.entries ∧
    List.Pairwise (fun a b => b.timestamp ≤ a.timestamp) (DBService.getAllEntries st) ∧
    ∀ st' : DBState, List.Perm st.entries st'.entries →
      (st.entries.map AnalysisEntry.id).Nodup →
      DBService.getAllEntries st = DBService.getAllEntries st' := by
  refine ⟨?_, ?_, ?_⟩
  · exact (List.reverse_perm _).trans (List.perm_insertionSort _ _)
  · have hs := List.sorted_insertionSort entryKeyLe st.entries
    refine List.pairwise_reverse.2 (hs.imp ?_)
    intro a b hab
    rcases hab with h | ⟨h, _⟩
    · exact Nat.le_of_lt h
    · exact Nat.le_of_eq h
  · intro st' hperm hnd
    unfold DBService.getAllEntries
    congr 1
    refine List.eq_of_perm_of_sorted (r := entryKeyLtNe) ?_ ?_ ?_
    · exact (List.perm_insertionSort _ _).trans
        (hperm.trans (List.perm_insertionSort _ _).symm)
    · exact sorted_insertionSort_ltNe _ hnd
    · exact sorted_insertionSort_ltNe _ (((hperm.map AnalysisEntry.id).nodup_iff).1 hnd)

/-- Witness for C2: two stores holding the same two entries in opposite
insertion order produce the same listing. -/
theorem C2_witness : DBService.getAllEntries dbB = DBService.getAllEntries dbC :=
  (C2_list_entries_complete_ordered_deterministic dbB).2.2 dbC
    (List.Perm.swap entryE2 entryE1 []) (by decide)

/-- C3: the context document of `searchDatabase` is built from at most the
first 50 entries of the supplied list (entries beyond the cutoff contribute
nothing, to the document or to the issued request), and the block contributed
by one entry depends only on its identifier, date (timestamp), title, analysis
text, and the first 300 characters of its original text. -/
theorem C3_search_context_bounded {ε : Type}
    (provider : GenRequest → Except ε (Option String))
    (fmtDate : Nat → String) (query : String) :
    (∀ entries, contextData fmtDate entries = contextData fmtDate (entries.take 50)) ∧
    (∀ entries, GeminiService.searchDatabase provider fmtDate query entries =
        GeminiService.searchDatabase provider fmtDate query (entries.take 50)) ∧
    (∀ e e2 : AnalysisEntry, e.id = e2.id → e.timestamp = e2.timestamp →
        e.title = e2.title → e.analysis = e2.analysis →
        e.originalText.take 300 = e2.originalText.take 300 →
        entryContext fmtDate e = entryContext fmtDate e2) := by
  have hctx : ∀ entries, contextData fmtDate entries
      = contextData fmtDate (entries.take 50) := by
    intro entries
    unfold contextData
    rw [List.take_take]
    norm_num
  refine ⟨hctx, ?_, ?_⟩
  · intro entries
    unfold GeminiService.searchDatabase
    rw [hctx entries]
  · intro e e2 h1 h2 h3 h4 h5
    unfold entryContext
    rw [h1, h2, h3, h4, h5]

/-- Witness for C3: the context block of an entry is unchanged when a field
outside the contributing set (here promptSnapshot) changes. -/
theorem C3_witness :
    entryContext (fun _ => "d") entryE1 =
      entryContext (fun _ => "d") { entryE1 with promptSnapshot := "other" } :=
  (C3_search_context_bounded
      (fun _ => Except.ok none : GenRequest → Except Unit (Option String))
      (fun _ => "d") "q").2.2 entryE1 { entryE1 with promptSnapshot := "other" }
    rfl rfl rfl rfl rfl

/-- C4: submitting the analysis form with empty or whitespace-only input text
issues no gateway call, surfaces the validation message, and leaves every
other piece of state — in particular the result — unchanged (the handler
touches no store in this branch). -/
theorem C4_empty_input_blocks_generation {ε : Type}
    (provider : GenRequest → Except ε (Option String)) (s : AnalyzerState)
    (h : jsTrim s.inputText = "") :
    (Analyzer.handleRunAnalysis provider s).gatewayCalls = [] ∧
    (Analyzer.handleRunAnalysis provider s).state.error =
      some "Please enter text to analyze." ∧
    (Analyzer.handleRunAnalysis provider s).state.result = s.result ∧
    (Analyzer.handleRunAnalysis provider s).state =
      { s with error := some "Please enter text to analyze." } := by
  simp [Analyzer.handleRunAnalysis, h]

/-- Witness for C4: a whitespace-only input issues no gateway call. -/
theorem C4_witness :
    (Analyzer.handleRunAnalysis
        (fun _ => Except.ok none : GenRequest → Except Unit (Option String))
        analyzerStateB).gatewayCalls = [] :=
  (C4_empty_input_blocks_generation _ analyzerStateB (by decide)).1

theorem savePrompt_fresh (st : DBState) (q : SavedPrompt)
    (h : q.id ∉ st.prompts.map SavedPrompt.id) :
    DBService.savePrompt q st = { st with prompts := st.prompts ++ [q] } := by
  unfold DBService.savePrompt
  rw [idbPut_of_fresh]
  intro x hx hkey
  exact h (hkey ▸ List.mem_map_of_mem SavedPrompt.id hx)

theorem savePrompt_present (st : DBState) (q p : SavedPrompt)
    (hp : p ∈ st.prompts) (hid : p.id = q.id) :
    DBService.savePrompt q st =
      { st with prompts := st.prompts.map (fun x => if x.id == q.id then q else x) } := by
  unfold DBService.savePrompt
  rw [idbPut_of_present]
  exact ⟨p, hp, hid⟩

theorem countP_id_map_put (l : List SavedPrompt) (q : SavedPrompt) :
    (l.map (fun x => if x.id == q.id then q else x)).countP (fun p => p.id == q.id)
      = l.countP (fun p => p.id == q.id) := by
  rw [List.countP_map]
  refine List.countP_congr ?_
  intro x _
  by_cases hx : x.id = q.id <;> simp [Function.comp, hx]

/-- Overwrite-by-key form of an IndexedDB `put` whose key is already present:
every record with the key of `q` is replaced by `q`, all others are kept. -/
def overwriteById (q : SavedPrompt) (l : List SavedPrompt) : List SavedPrompt :=
  l.map (fun x => if x.id == q.id then q else x)

theorem savePrompt_present' (st : DBState) (q p : SavedPrompt)
    (hp : p ∈ st.prompts) (hid : p.id = q.id) :
    DBService.savePrompt q st = { st with prompts := overwriteById q st.prompts } :=
  savePrompt_present st q p hp hid

theorem countP_overwriteById (l : List SavedPrompt) (q : SavedPrompt) :
    (overwriteById q l).countP (fun p => p.id == q.id)
      = l.countP (fun p => p.id == q.id) :=
  countP_id_map_put l q

theorem length_overwriteById (l : List SavedPrompt) (q : SavedPrompt) :
    (overwriteById q l).length = l.length := by
  unfold overwriteById
  exact List.length_map l _

/-- C5: saving a valid (non-empty title, non-empty content) new template and
then listing templates yields exactly one template with that title and content
and a non-empty identifier; saving again with the same identifier overwrites
the stored template wholesale (same collection size, still exactly one record
under that identifier) instead of creating a duplicate. -/
theorem C5_save_template_upsert (st : DBState) (t c freshId : String) (now : Nat)
    (ht : t ≠ "") (hc : c ≠ "")
    (hfresh : freshId ∉ st.prompts.map SavedPrompt.id)
    (hfid : freshId ≠ "") (hnow : now ≠ 0)
    (hnew : ∀ p ∈ st.prompts, ¬(p.title = t ∧ p.content = c)) :
    ∃ st1 q, PromptManager.handleSave ⟨none, some t, some c, none⟩ freshId now st
        = (st1, some q) ∧
      q.id = freshId ∧ q.id ≠ "" ∧ q.title = t ∧ q.content = c ∧
      (DBService.getAllPrompts st1).countP
          (fun p => p.title == t && p.content == c) = 1 ∧
      q ∈ DBService.getAllPrompts st1 ∧
      ∀ t2 c2 fresh2 now2, t2 ≠ "" → c2 ≠ "" →
        ∃ st2 q2, PromptManager.handleSave ⟨some freshId, some t2, some c2, some now⟩
            fresh2 now2 st1 = (st2, some q2) ∧
          q2.id = freshId ∧
          st2.prompts.length = st1.prompts.length ∧
          st2.prompts.countP (fun p => p.id == q2.id) = 1 := by
  have hq : PromptManager.handleSave ⟨none, some t, some c, none⟩ freshId now st
      = (DBService.savePrompt ⟨freshId, t, c, some now⟩ st,
         some ⟨freshId, t, c, some now⟩) := by
    simp [PromptManager.handleSave, jsTruthy, ht, hc, jsOrString, jsOrNum]
  have hsp : DBService.savePrompt ⟨freshId, t, c, some now⟩ st
      = { st with prompts := st.prompts ++ [⟨freshId, t, c, some now⟩] } :=
    savePrompt_fresh st _ hfresh
  have hmem1 : (⟨freshId, t, c, some now⟩ : SavedPrompt)
      ∈ st.prompts ++ [⟨freshId, t, c, some now⟩] :=
    List.mem_append.2 (Or.inr (List.mem_singleton.2 rfl))
  refine ⟨{ st with prompts := st.prompts ++ [⟨freshId, t, c, some now⟩] },
    ⟨freshId, t, c, some now⟩, by rw [hq, hsp], rfl, hfid, rfl, rfl, ?_, ?_, ?_⟩
  · rw [DBService.getAllPrompts,
      List.Perm.countP_eq _ (List.perm_insertionSort promptKeyLe _),
      List.countP_append]
    have h0 : st.prompts.countP (fun p => p.title == t && p.content == c) = 0 := by
      rw [List.countP_eq_zero]
      intro p hp
      simp only [Bool.and_eq_true, beq_iff_eq]
      rintro ⟨hpt, hpc⟩
      exact hnew p hp ⟨hpt, hpc⟩
    rw [h0]
    simp
  · rw [DBService.getAllPrompts]
    exact (List.mem_insertionSort _).2 hmem1
  · intro t2 c2 fresh2 now2 ht2 hc2
    have hq2 : PromptManager.handleSave ⟨some freshId, some t2, some c2, some now⟩
        fresh2 now2 { st with prompts := st.prompts ++ [⟨freshId, t, c, some now⟩] }
        = (DBService.savePrompt ⟨freshId, t2, c2, some now⟩
            { st with prompts := st.prompts ++ [⟨freshId, t, c, some now⟩] },
           some ⟨freshId, t2, c2, some now⟩) := by
      simp [PromptManager.handleSave, jsTruthy, ht2, hc2, jsOrString, hfid,
        jsOrNum, hnow]
    have hsp2 : DBService.savePrompt ⟨freshId, t2, c2, some now⟩
        { st with prompts := st.prompts ++ [⟨freshId, t, c, some now⟩] }
        = { st with prompts := (overwriteById ⟨freshId, t2, c2, some now⟩
              (st.prompts ++ [⟨freshId, t, c, some now⟩])) } :=
      savePrompt_present' _ _ ⟨freshId, t, c, some now⟩ hmem1 rfl
    refine ⟨{ st with prompts := (overwriteById ⟨freshId, t2, c2, some now⟩
        (st.prompts ++ [⟨freshId, t, c, some now⟩])) },
      ⟨freshId, t2, c2, some now⟩, by rw [hq2, hsp2], rfl, ?_, ?_⟩
    · show (overwriteById ⟨freshId, t2, c2, some now⟩
          (st.prompts ++ [(⟨freshId, t, c, some now⟩ : SavedPrompt)])).length
        = (st.prompts ++ [(⟨freshId, t, c, some now⟩ : SavedPrompt)]).length
      exact length_overwriteById _ _
    · show (overwriteById ⟨freshId, t2, c2, some now⟩
          (st.prompts ++ [(⟨freshId, t, c, some now⟩ : SavedPrompt)])).countP
          (fun p => p.id == (⟨freshId, t2, c2, some now⟩ : SavedPrompt).id) = 1
      rw [countP_overwriteById, List.countP_append]
      have h0 : st.prompts.countP
          (fun p => p.id == (⟨freshId, t2, c2, some now⟩ : SavedPrompt).id) = 0 := by
        rw [List.countP_eq_zero]
        intro p hp
        simp only [beq_iff_eq]
        intro hpid
        exact hfresh (hpid ▸ List.mem_map_of_mem SavedPrompt.id hp)
      rw [h0]
      simp

/-- Witness for C5: saving a valid template into an empty store and listing
yields exactly one template with that title and content. -/
theorem C5_witness :
    (DBService.getAllPrompts
        (PromptManager.handleSave ⟨none, some "My title", some "My content", none⟩
          "u1" 7 ⟨[], []⟩).1).countP
      (fun p => p.title == "My title" && p.content == "My content") = 1 := by
  obtain ⟨st1, q, heq, -, -, -, -, hcount, -, -⟩ :=
    C5_save_template_upsert ⟨[], []⟩ "My title" "My content" "u1" 7
      (by decide) (by decide) (by decide) (by decide) (by decide) (by decide)
  rw [heq]
  exact hcount

/-- C6: importing the JSON array [{"title":"A","content":"B"}] produces
exactly one new template, carrying a generated identifier; importing a value
that is not a list produces zero new templates and reports a failure; an item
whose title or content is missing (falsy) contributes nothing to the import,
while items that individually validate are saved. -/
theorem C6_import_validation (st : DBState) (freshIds : Nat → String)
    (hfresh : freshIds 0 ∉ st.prompts.map SavedPrompt.id) :
    PromptManager.handleImport (.list [⟨none, some "A", some "B", none⟩]) freshIds st
      = { db := { st with prompts := st.prompts ++ [⟨freshIds 0, "A", "B", none⟩] },
          count := some 1 } ∧
    PromptManager.handleImport .notList freshIds st = { db := st, count := none } ∧
    (∀ (l₁ l₂ : List CurrentPrompt) (bad : CurrentPrompt),
        (jsTruthy bad.title && jsTruthy bad.content) = false →
        PromptManager.handleImport (.list (l₁ ++ bad :: l₂)) freshIds st =
          PromptManager.handleImport (.list (l₁ ++ l₂)) freshIds st) := by
  refine ⟨?_, rfl, ?_⟩
  · have h1 : PromptManager.handleImport (.list [⟨none, some "A", some "B", none⟩])
        freshIds st
        = { db := DBService.savePrompt ⟨freshIds 0, "A", "B", none⟩ st,
            count := some 1 } := by
      simp [PromptManager.handleImport, jsTruthy, jsOrString]
    rw [h1, savePrompt_fresh st _ hfresh]
  · intro l₁ l₂ bad hbad
    simp only [PromptManager.handleImport, List.foldl_append, List.foldl_cons, hbad,
      Bool.false_eq_true, if_false]

/-- Witness for C6: importing one valid item into the concrete store adds
exactly that one template with the generated identifier. -/
theorem C6_witness :
    PromptManager.handleImport (.list [⟨none, some "A", some "B", none⟩])
        (fun _ => "u2") dbA
      = { db := { dbA with prompts := dbA.prompts ++ [⟨"u2", "A", "B", none⟩] },
          count := some 1 } :=
  (C6_import_validation dbA (fun _ => "u2") (by decide)).1

/-- C7: when the underlying text-generation call throws (any transport, auth,
or quota failure e), analyzeText fails by propagating a failure that carries
the underlying error e — the GenerationError surfaced to the caller — the
Analyzer shows the fixed failure message, keeps no result, and issued exactly
one gateway call: the call is never retried automatically. -/
theorem C7_generation_failure_surfaced_no_retry {ε : Type} (e : ε)
    (provider : GenRequest → Except ε (Option String))
    (hfail : ∀ r, provider r = .error e)
    (s : AnalyzerState) (promptObj : SavedPrompt)
    (hin : jsTrim s.inputText ≠ "") (hsel : s.selectedPromptId ≠ "")
    (hfind : s.prompts.find? (fun p => p.id == s.selectedPromptId) = some promptObj) :
    (∀ text instr, GeminiService.analyzeText provider text instr = .error e) ∧
    (Analyzer.handleRunAnalysis provider s).state.error =
      some "Failed to generate analysis. Please check your connection and API key." ∧
    (Analyzer.handleRunAnalysis provider s).state.result = none ∧
    (Analyzer.handleRunAnalysis provider s).gatewayCalls.length = 1 := by
  have han : ∀ text instr, GeminiService.analyzeText provider text instr = .error e := by
    intro text instr
    unfold GeminiService.analyzeText
    rw [hfail]
  refine ⟨han, ?_, ?_, ?_⟩ <;>
    simp [Analyzer.handleRunAnalysis, hin, hsel, hfind, han]

/-- Witness for C7: with a provider that always throws, the handler issues
exactly one gateway call. -/
theorem C7_witness :
    (Analyzer.handleRunAnalysis
        (fun _ => Except.error () : GenRequest → Except Unit (Option String))
        analyzerStateA).gatewayCalls.length = 1 :=
  (C7_generation_failure_surfaced_no_retry () _ (fun _ => rfl) analyzerStateA
    promptA (by decide) (by decide) (by decide)).2.2.2

/-- C8: a knowledge-base question asked with zero entries still completes
without throwing — the context document built from the empty entry list is
empty and a successful provider call returns normally — and whenever the
provider returns nothing (undefined or empty response text), for the empty
list or any entry list, the returned value is the literal fallback string
rather than an exception. -/
theorem C8_empty_db_question_completes {ε : Type}
    (provider : GenRequest → Except ε (Option String))
    (fmtDate : Nat → String) (query : String) :
    contextData fmtDate [] = "" ∧
    (∀ r, (∀ req, provider req = .ok r) →
      (∃ answer, GeminiService.searchDatabase provider fmtDate query [] = .ok answer) ∧
      (jsTruthy r = false →
        GeminiService.searchDatabase provider fmtDate query [] =
          .ok "I couldn\x27t find an answer in your database.")) ∧
    (∀ entries r, (∀ req, provider req = .ok r) → jsTruthy r = false →
      GeminiService.searchDatabase provider fmtDate query entries =
        .ok "I couldn\x27t find an answer in your database.") := by
  have hgen : ∀ entries r, (∀ req, provider req = .ok r) → jsTruthy r = false →
      GeminiService.searchDatabase provider fmtDate query entries =
        .ok "I couldn\x27t find an answer in your database." := by
    intro entries r hok hr
    unfold GeminiService.searchDatabase
    rw [hok]
    cases r with
    | none => rfl
    | some str =>
      simp only [jsTruthy, Bool.not_eq_false'] at hr
      have hstr : str = "" := by simpa using hr
      simp [jsOrString, hstr]
  refine ⟨rfl, ?_, hgen⟩
  intro r hok
  constructor
  · refine ⟨jsOrString r "I couldn\x27t find an answer in your database.", ?_⟩
    unfold GeminiService.searchDatabase
    rw [hok]
  · exact fun hr => hgen [] r hok hr

/-- Witness for C8: a question over the empty store with a provider returning
no text yields the literal fallback. -/
theorem C8_witness :
    GeminiService.searchDatabase
        (fun _ => Except.ok none : GenRequest → Except Unit (Option String))
        (fun _ => "d") "q" []
      = .ok "I couldn\x27t find an answer in your database." :=
  (C8_empty_db_question_completes _ (fun _ => "d") "q").2.2 [] none
    (fun _ => rfl) rfl

/-- C10: whenever analyzeText or searchDatabase returns normally, the
returned string is non-empty: it is either the provider response text, which
the falsy check guarantees non-empty on this path, or one of the two
non-empty literal fallback strings. -/
theorem C10_generation_results_nonempty {ε : Type}
    (provider : GenRequest → Except ε (Option String)) (fmtDate : Nat → String) :
    (∀ text instr answer,
      GeminiService.analyzeText provider text instr = .ok answer → answer ≠ "") ∧
    (∀ query entries answer,
      GeminiService.searchDatabase provider fmtDate query entries = .ok answer →
      answer ≠ "") := by
  constructor
  · intro text instr answer h
    unfold GeminiService.analyzeText at h
    revert h
    cases provider
        { model := GeminiService.modelId
          parts := ["INSTRUCTION: " ++ instr, "TRANSCRIPT/TEXT TO ANALYZE:\n" ++ text]
          systemInstruction := none } with
    | error e => intro h; cases h
    | ok t =>
      intro h
      have ha : answer = jsOrString t "No response generated." := by
        simpa using h.symm
      rw [ha]
      exact jsOrString_ne_empty _ _ (by decide)
  · intro query entries answer h
    unfold GeminiService.searchDatabase at h
    revert h
    cases provider
        { model := GeminiService.modelId
          parts := ["DATABASE CONTEXT:\n" ++ contextData fmtDate entries,
                    "USER QUESTION: " ++ query]
          systemInstruction := some searchSystemInstruction } with
    | error e => intro h; cases h
    | ok t =>
      intro h
      have ha : answer = jsOrString t "I couldn\x27t find an answer in your database." := by
        simpa using h.symm
      rw [ha]
      exact jsOrString_ne_empty _ _ (by decide)

/-- Witness for C10: a successfully generated analysis is a non-empty string. -/
theorem C10_witness :
    GeminiService.analyzeText
        (fun _ => Except.ok (some "hello") : GenRequest → Except Unit (Option String))
        "t" "i" = .ok "hello" ∧ ("hello" : String) ≠ "" :=
  ⟨rfl,
    (C10_generation_results_nonempty
        (fun _ => Except.ok (some "hello") : GenRequest → Except Unit (Option String))
        (fun _ => "d")).1 "t" "i" "hello" rfl⟩

/-- C9: editing an existing template (one satisfying the data model: non-empty
identifier and a nonzero creation timestamp) through the save path mutates it
in place: the saved template keeps the identifier and the creation timestamp
of the edited template, only title and content change, the store is the old
store with exactly that record overwritten, and every other record is kept. -/
theorem C9_edit_preserves_identity (st : DBState) (p : SavedPrompt) (ts : Nat)
    (fresh : String) (now : Nat) (title2 content2 : String)
    (hp : p ∈ st.prompts) (hid : p.id ≠ "")
    (hts : p.createdAt = some ts) (hts0 : ts ≠ 0)
    (ht2 : title2 ≠ "") (hc2 : content2 ≠ "") :
    ∃ q, PromptManager.handleSave
        { PromptManager.handleEdit (some p) with
          title := some title2, content := some content2 } fresh now st
      = ({ st with prompts := overwriteById q st.prompts }, some q) ∧
      q.id = p.id ∧ q.createdAt = p.createdAt ∧
      q.title = title2 ∧ q.content = content2 ∧
      (∀ x ∈ st.prompts, x.id ≠ p.id → x ∈ overwriteById q st.prompts) := by
  refine ⟨⟨p.id, title2, content2, some ts⟩, ?_, rfl, hts.symm, rfl, rfl, ?_⟩
  · have hq : PromptManager.handleSave
        { PromptManager.handleEdit (some p) with
          title := some title2, content := some content2 } fresh now st
        = (DBService.savePrompt ⟨p.id, title2, content2, some ts⟩ st,
           some ⟨p.id, title2, content2, some ts⟩) := by
      simp [PromptManager.handleSave, PromptManager.handleEdit, jsTruthy, ht2, hc2,
        jsOrString, hid, jsOrNum, hts, hts0]
    rw [hq, savePrompt_present' st ⟨p.id, title2, content2, some ts⟩ p hp rfl]
  · intro x hx hxid
    unfold overwriteById
    refine List.mem_map.2 ⟨x, hx, ?_⟩
    have hne : (x.id == (⟨p.id, title2, content2, some ts⟩ : SavedPrompt).id) = false := by
      simp only [beq_eq_false_iff_ne, ne_eq]
      exact hxid
    rw [hne]
    simp

/-- Witness for C9: editing the concrete stored template keeps its identifier
and creation timestamp. -/
theorem C9_witness :
    (PromptManager.handleSave
        { PromptManager.handleEdit (some promptA) with
          title := some "T2", content := some "C2" } "u3" 9 dbA).2.map
        SavedPrompt.id = some "p1" ∧
    (PromptManager.handleSave
        { PromptManager.handleEdit (some promptA) with
          title := some "T2", content := some "C2" } "u3" 9 dbA).2.map
        SavedPrompt.createdAt = some (some 5) := by
  obtain ⟨q, heq, hqid, hqca, -, -, -⟩ :=
    C9_edit_preserves_identity dbA promptA 5 "u3" 9 "T2" "C2"
      (by decide) (by decide) (by decide) (by decide) (by decide) (by decide)
  rw [heq]
  constructor
  · simp [hqid, promptA]
  · simp [hqca, promptA]
